import Mathlib

/-!
# Verification of the object-type metadata layer (`dpiObjectType.c`)

A shallow embedding of `src/dpiObjectType.c`.  Every call into the external
native-client layer (`dpiOci__*`, `dpiUtils__*`, `dpiOracleType__*`) is
modelled by an oracle record whose fields give the outcome of each call
site; universally quantifying a theorem over the oracle is fault injection
at every step.  The observable machine state `DpiSt` tracks describe-context
allocation, reference counts, live object instances, and an event trace of
the boundary calls that the claims speak about.
-/

/-- One observable boundary event: describe-context allocation and release,
a describe call performed through a context, a positional sub-parameter
fetch, reference-count adjustments on a handle, object-instance allocation
and teardown, and the frees performed by `dpiObjectType__free`. -/
inductive DpiEv where
  | ctxAlloc (c : Nat)
  | ctxFree (c : Nat)
  | describeAny (c : Nat) (tdo : Option Nat)
  | subParamGet (pos : Nat)
  | incRef (h : Nat)
  | decRef (h : Nat)
  | objAlloc (o : Nat)
  | objFree (o : Nat)
  | freeSchema
  | freeName
  | freeStorage
deriving DecidableEq

/-- The observable state threaded through every modelled function.
`ctxNext` is the serial number of the next describe context to be handed
out, `ctxLive` the currently allocated contexts, `badFree` is set when a
context that is not live is freed (a double free), `refCount` maps a handle
id to its reference count, `objNext`/`objLive` play the same roles for
object instances, and `trace` is the boundary-event log. -/
structure DpiSt where
  ctxNext : Nat := 0
  ctxLive : List Nat := []
  badFree : Bool := false
  refCount : Nat → Nat := fun _ => 0
  objNext : Nat := 0
  objLive : List Nat := []
  trace : List DpiEv := []

/-- Append one event to the trace. -/
def DpiSt.emit (s : DpiSt) (e : DpiEv) : DpiSt :=
  { s with trace := s.trace ++ [e] }

/-- Model of `dpiOci__handleAlloc` for a describe handle: on success a fresh context
serial is returned and becomes live; on failure the state is untouched.
The success of the underlying native call is the oracle bit `ok`. -/
def dpiOci__handleAlloc (ok : Bool) (s : DpiSt) : Option Nat × DpiSt :=
  if ok then
    (some s.ctxNext,
      { s with ctxNext := s.ctxNext + 1, ctxLive := s.ctxNext :: s.ctxLive,
               trace := s.trace ++ [DpiEv.ctxAlloc s.ctxNext] })
  else (none, s)

/-- Model of `dpiOci__handleFree` for a describe handle: a live context is removed
from the live set; freeing a context that is not live records a double
free in `badFree`. -/
def dpiOci__handleFree (c : Nat) (s : DpiSt) : DpiSt :=
  if c ∈ s.ctxLive then
    { s with ctxLive := s.ctxLive.erase c, trace := s.trace ++ [DpiEv.ctxFree c] }
  else
    { s with badFree := true, trace := s.trace ++ [DpiEv.ctxFree c] }

/-- Modelled from the spec (§4.1 Generic Handle Registry, `dpiGen.c` is not
in the excerpt): the observable effect of `dpiGen__setRefCount(h, +1)` —
the handle's reference count is incremented. -/
def dpiGen__incRef (h : Nat) (s : DpiSt) : DpiSt :=
  { s with refCount := fun x => if x = h then s.refCount x + 1 else s.refCount x,
           trace := s.trace ++ [DpiEv.incRef h] }

/-- Modelled from the spec (§4.1 Generic Handle Registry, `dpiGen.c` is not
in the excerpt): the observable effect of `dpiGen__setRefCount(h, -1)` —
the handle's reference count is decremented. -/
def dpiGen__decRef (h : Nat) (s : DpiSt) : DpiSt :=
  { s with refCount := fun x => if x = h then s.refCount x - 1 else s.refCount x,
           trace := s.trace ++ [DpiEv.decRef h] }

/-- The element-type information stored in a `dpiObjectType`
(`dpiDataTypeInfo` in C); its zero-initialized state is the default value.
`objectType` is the handle id of the nested element type descriptor when
the element is itself an object type. -/
structure DpiDataTypeInfo where
  oracleTypeNum : Nat := 0
  objectType : Option Nat := none
deriving DecidableEq

/-- The `dpiObjectType` structure, with the default value playing the role
of the zeroed storage `dpiGen__allocate` hands out.  `conn` holds the id of
the referenced connection handle, `tdo` the pinned type-definition object. -/
structure DpiObjectType where
  conn : Option Nat := none
  schema : Option String := none
  schemaLength : Nat := 0
  name : Option String := none
  nameLength : Nat := 0
  typeCode : Nat := 0
  isCollection : Bool := false
  elementTypeInfo : DpiDataTypeInfo := {}
  numAttributes : Nat := 0
  tdo : Option Nat := none
deriving DecidableEq

/-- The OCI type code denoting a named collection (`DPI_SQLT_NCO` from
`dpiImpl.h`; the exact value is irrelevant to every theorem below). -/
def DPI_SQLT_NCO : Nat := 122

/-- Oracle for the external calls made by `dpiObjectType__describe`:
whether `dpiOci__describeAny` succeeds, the top-level parameter returned by
`dpiOci__attrGet(ATTR_PARAM)`, and — as functions of the parameter they are
read from — the type code, the attribute count, the collection-element
sub-parameter, and the element type info that
`dpiOracleType__populateTypeInfo` resolves.  A `none` is a failed call. -/
structure DescribeExt where
  describeAnyOk : Bool
  topParam : Option Nat
  typeCodeOf : Nat → Option Nat
  numAttrsOf : Nat → Option Nat
  collectionParamOf : Nat → Option Nat
  elemInfoOf : Nat → Option DpiDataTypeInfo

/-- Model of `dpiObjectType__describe`: describe the type through the supplied
describe handle, then read the top-level parameter, the type code and the
attribute count; when the type code denotes a collection, additionally
resolve the collection-element sub-parameter into `elementTypeInfo`.
Returns the success flag together with the (partially) updated structure
and state, mirroring the in-place mutation of the C code. -/
def dpiObjectType__describe (ext : DescribeExt) (t : DpiObjectType)
    (describeHandle : Nat) (s : DpiSt) : Bool × DpiObjectType × DpiSt :=
  let s := s.emit (DpiEv.describeAny describeHandle t.tdo)
  if ext.describeAnyOk then
    match ext.topParam with
    | none => (false, t, s)
    | some param =>
      match ext.typeCodeOf param with
      | none => (false, t, s)
      | some tc =>
        let t := { t with typeCode := tc }
        match ext.numAttrsOf param with
        | none => (false, t, s)
        | some n =>
          let t := { t with numAttributes := n }
          if tc = DPI_SQLT_NCO then
            let t := { t with isCollection := true }
            match ext.collectionParamOf param with
            | none => (false, t, s)
            | some cp =>
              match ext.elemInfoOf cp with
              | none => (false, t, s)
              | some info => (true, { t with elementTypeInfo := info }, s)
          else (true, t, s)
  else (false, t, s)

/-- Oracle for the external calls made by `dpiObjectType__init`: the schema
and name strings duplicated by `dpiUtils__getAttrStringWithDup`, the TDO
reference read from the parameter, the pinned TDO returned by
`dpiOci__objectPin`, whether the describe-handle allocation succeeds, and
the describe oracle. -/
structure InitExt where
  schemaStr : Option String
  nameStr : Option String
  tdoRef : Option Nat
  pin : Option Nat
  ctxAllocOk : Bool
  desc : DescribeExt

/-- Model of `dpiObjectType__init`: read schema and name, pin the TDO, acquire a
describe handle, describe the type through it, and free the describe
handle — also on the path where the describe fails. -/
def dpiObjectType__init (ext : InitExt) (t : DpiObjectType) (s : DpiSt) :
    Bool × DpiObjectType × DpiSt :=
  match ext.schemaStr with
  | none => (false, t, s)
  | some sc =>
    let t := { t with schema := some sc, schemaLength := sc.length }
    match ext.nameStr with
    | none => (false, t, s)
    | some nm =>
      let t := { t with name := some nm, nameLength := nm.length }
      match ext.tdoRef with
      | none => (false, t, s)
      | some _ =>
        match ext.pin with
        | none => (false, t, s)
        | some tdo =>
          let t := { t with tdo := some tdo }
          match dpiOci__handleAlloc ext.ctxAllocOk s with
          | (none, s) => (false, t, s)
          | (some describeHandle, s) =>
            match dpiObjectType__describe ext.desc t describeHandle s with
            | (ok, t, s) => (ok, t, dpiOci__handleFree describeHandle s)

/-- Model of `dpiObjectType__free`: release the connection reference if present,
release the nested element type descriptor reference if present, free the
schema and name strings if present, then free the storage. -/
def dpiObjectType__free (t : DpiObjectType) (s : DpiSt) : DpiSt :=
  let s := match t.conn with
    | some c => dpiGen__decRef c s
    | none => s
  let s := match t.elementTypeInfo.objectType with
    | some e => dpiGen__decRef e s
    | none => s
  let s := if t.schema.isSome then s.emit DpiEv.freeSchema else s
  let s := if t.name.isSome then s.emit DpiEv.freeName else s
  s.emit DpiEv.freeStorage

/-- Modelled from the spec (§4.1, `dpiGen.c` is not in the excerpt):
`dpiGen__setRefCount(objType, -1)` on an object type whose current count is
`count` — when the count reaches zero the destructor `dpiObjectType__free`
runs; otherwise the count is merely decremented. -/
def dpiGen__releaseObjectType (t : DpiObjectType) (count : Nat) (s : DpiSt) :
    Nat × DpiSt :=
  if count = 1 then (0, dpiObjectType__free t s) else (count - 1, s)

/-- Oracle for `dpiObjectType__allocate`: whether the registry allocation
(`dpiGen__allocate`) succeeds, whether taking the connection reference
(`dpiGen__setRefCount(conn, +1)`) succeeds, and the init oracle. -/
structure AllocExt where
  genAllocOk : Bool
  connAddOk : Bool
  init : InitExt

/-- Model of `dpiObjectType__allocate`: here `*objType` starts `NULL` (the `none` result);
allocate zeroed storage, retain a reference to the connection, initialize,
and on any failure after the allocation tear the partial structure down
with `dpiObjectType__free` before reporting the failure.  Per the spec
(§4.1) `dpiGen__allocate` hands out zeroed storage, so the structure being
torn down on the connection-reference failure path has `conn = none`. -/
def dpiObjectType__allocate (ext : AllocExt) (connId : Nat) (s : DpiSt) :
    Option DpiObjectType × DpiSt :=
  if ext.genAllocOk then
    let t : DpiObjectType := {}
    if ext.connAddOk then
      let s := dpiGen__incRef connId s
      let t := { t with conn := some connId }
      match dpiObjectType__init ext.init t s with
      | (false, t, s) => (none, dpiObjectType__free t s)
      | (true, t, s) => (some t, s)
    else (none, dpiObjectType__free t s)
  else (none, s)

/-- The error taxonomy visible to a caller of the public operations. -/
inductive DpiErr where
  | invalidHandle
  | nullPointer
  | arraySizeTooSmall
  | externalError
deriving DecidableEq

/-- Oracle for the external calls made by `dpiObjectType_createObject`:
whether `dpiObject__allocate` succeeds as a whole, and whether
`dpiOci__objectNew` and `dpiOci__objectGetInd` succeed. -/
structure CreateExt where
  allocOk : Bool
  objectNewOk : Bool
  objectGetIndOk : Bool

/-- Modelled from the spec (§4.3, `dpiObject.c` is not in the excerpt):
`dpiObject__allocate` allocates a registry-managed ObjectInstance and takes
a counted reference to the TypeDescriptor `tdId`; on failure nothing is
observably changed (per §7, no operation partially succeeds). -/
def dpiObject__allocate (ok : Bool) (tdId : Nat) (s : DpiSt) :
    Option Nat × DpiSt :=
  if ok then
    (some s.objNext,
      dpiGen__incRef tdId
        { s with objNext := s.objNext + 1, objLive := s.objNext :: s.objLive,
                 trace := s.trace ++ [DpiEv.objAlloc s.objNext] })
  else (none, s)

/-- Modelled from the spec (§4.1 and §4.3, `dpiGen.c`/`dpiObject.c` are not
in the excerpt): `dpiGen__setRefCount(obj, -1)` on a freshly created object
instance whose count is 1 — the count reaches zero, so the instance's
destructor runs, releasing the TypeDescriptor reference and the instance's
storage. -/
def dpiObject__release (o : Nat) (tdId : Nat) (s : DpiSt) : DpiSt :=
  let s := dpiGen__decRef tdId s
  { s with objLive := s.objLive.erase o, trace := s.trace ++ [DpiEv.objFree o] }

/-- Model of `dpiObjectType_createObject`: validate the handle
(`dpiGen__startPublicFn`, modelled by the `valid` bit) and the output
pointer (`DPI_CHECK_PTR_NOT_NULL`, modelled by the `objNull` bit), allocate
the object, create the instance data, fetch the null indicator; on a
failure of either of the last two steps release the partially built
instance before reporting the error.  `tdId` is the handle id of the object
type the object is created from; on success the new instance id is
returned (the `*obj` assignment). -/
def dpiObjectType_createObject (ext : CreateExt) (valid : Bool)
    (objNull : Bool) (tdId : Nat) (s : DpiSt) : Except DpiErr Nat × DpiSt :=
  if valid then
    if objNull then (.error .nullPointer, s)
    else
      match dpiObject__allocate ext.allocOk tdId s with
      | (none, s) => (.error .externalError, s)
      | (some o, s) =>
        if ext.objectNewOk then
          if ext.objectGetIndOk then (.ok o, s)
          else (.error .externalError, dpiObject__release o tdId s)
        else (.error .externalError, dpiObject__release o tdId s)
  else (.error .invalidHandle, s)

/-- Oracle for the external calls made by `dpiObjectType_getAttributes`:
whether the describe-handle allocation and the describe succeed, the
top-level parameter, the attribute-list parameter read from it, the
positional sub-parameter fetch `dpiOci__paramGet(attrListParam, pos)`, and
the attribute descriptor that `dpiObjectAttr__allocate` (modelled from the
spec §4.2/§3, `dpiObjectAttr.c` is not in the excerpt) materializes from an
attribute sub-parameter. -/
structure GetAttrExt where
  ctxAllocOk : Bool
  describeAnyOk : Bool
  topParam : Option Nat
  attrListParamOf : Nat → Option Nat
  subParamAt : Nat → Nat → Option Nat
  attrAlloc : Nat → Option Nat

/-- The per-attribute loop of `dpiObjectType_getAttributes`: for each index
`i` of `idxs` fetch the sub-parameter at 1-based position `i + 1` from the
attribute list parameter `alp`, materialize an attribute descriptor, and
write it into the destination at index `i`.  A failed fetch or
materialization aborts the loop with failure (the caller frees the
describe handle). -/
def dpiObjectType_getAttrLoop (ext : GetAttrExt) (alp : Nat) :
    List Nat → (Nat → Option Nat) → DpiSt →
    Option (Nat → Option Nat) × DpiSt
  | [], dest, s => (some dest, s)
  | i :: rest, dest, s =>
    let s := s.emit (DpiEv.subParamGet (i + 1))
    match ext.subParamAt alp (i + 1) with
    | none => (none, s)
    | some attrParam =>
      match ext.attrAlloc attrParam with
      | none => (none, s)
      | some a =>
        dpiObjectType_getAttrLoop ext alp rest
          (fun j => if j = i then some a else dest j) s

/-- Model of `dpiObjectType_getAttributes`: validate the handle and the destination
pointer, fail with `arraySizeTooSmall` when the caller-supplied capacity
`numAttributes` is below the type's attribute count, return success
immediately when the capacity is 0, and otherwise acquire a describe
handle, describe the type, read the attribute-list parameter and fill the
destination, freeing the describe handle on every exit path.  The
destination array is modelled as the map `dest` from index to the
(optionally) written attribute descriptor. -/
def dpiObjectType_getAttributes (ext : GetAttrExt) (valid : Bool)
    (t : DpiObjectType) (numAttributes : Nat) (attrsNull : Bool)
    (dest : Nat → Option Nat) (s : DpiSt) :
    Except DpiErr Unit × (Nat → Option Nat) × DpiSt :=
  if valid then
    if attrsNull then (.error .nullPointer, dest, s)
    else if numAttributes < t.numAttributes then
      (.error .arraySizeTooSmall, dest, s)
    else if numAttributes = 0 then (.ok (), dest, s)
    else
      match dpiOci__handleAlloc ext.ctxAllocOk s with
      | (none, s) => (.error .externalError, dest, s)
      | (some describeHandle, s) =>
        let s := s.emit (DpiEv.describeAny describeHandle t.tdo)
        if ext.describeAnyOk then
          match ext.topParam with
          | none => (.error .externalError, dest, dpiOci__handleFree describeHandle s)
          | some topLevelParam =>
            match ext.attrListParamOf topLevelParam with
            | none => (.error .externalError, dest, dpiOci__handleFree describeHandle s)
            | some alp =>
              match dpiObjectType_getAttrLoop ext alp
                  (List.range t.numAttributes) dest s with
              | (none, s) => (.error .externalError, dest, dpiOci__handleFree describeHandle s)
              | (some dest, s) => (.ok (), dest, dpiOci__handleFree describeHandle s)
        else (.error .externalError, dest, dpiOci__handleFree describeHandle s)
  else (.error .invalidHandle, dest, s)

/-- The snapshot written by `dpiObjectType_getInfo` (`dpiObjectTypeInfo`). -/
structure DpiObjectTypeInfo where
  name : Option String
  nameLength : Nat
  schema : Option String
  schemaLength : Nat
  isCollection : Bool
  elementTypeInfo : DpiDataTypeInfo
  numAttributes : Nat
deriving DecidableEq

/-- Model of `dpiObjectType_getInfo`: validate the handle and the output pointer,
then copy the descriptor's fields into the caller's info structure. -/
def dpiObjectType_getInfo (valid : Bool) (infoNull : Bool)
    (t : DpiObjectType) (s : DpiSt) : Except DpiErr DpiObjectTypeInfo × DpiSt :=
  if valid then
    if infoNull then (.error .nullPointer, s)
    else
      (.ok { name := t.name, nameLength := t.nameLength, schema := t.schema,
             schemaLength := t.schemaLength, isCollection := t.isCollection,
             elementTypeInfo := t.elementTypeInfo,
             numAttributes := t.numAttributes }, s)
  else (.error .invalidHandle, s)

/-- The suffix of events a run starting at state `s` and ending at state
`s2` appended to the trace. -/
def traceDelta (s s2 : DpiSt) : List DpiEv :=
  s2.trace.drop s.trace.length


/-- Predicate picking out describe-context allocation events. -/
def isCtxAllocEv : DpiEv → Bool
  | DpiEv.ctxAlloc _ => true
  | _ => false

/-- Predicate picking out describe-context release events. -/
def isCtxFreeEv : DpiEv → Bool
  | DpiEv.ctxFree _ => true
  | _ => false

/-- Concrete destination array holding no attribute descriptors. -/
def destW : Nat → Option Nat := fun _ => none

/-- Concrete initial state with no live resources. -/
def s0 : DpiSt := {}

/-- Concrete object type with three attributes. -/
def tW3 : DpiObjectType := { numAttributes := 3 }

/-- Concrete object type with two attributes. -/
def tW2 : DpiObjectType := { numAttributes := 2 }

/-- Concrete freshly allocated object type referencing connection 0. -/
def tConnW : DpiObjectType := { conn := some 0 }

/-- Concrete fully populated object type: a collection whose element type
descriptor is handle 1, owned by connection 0, with owned strings. -/
def tFullW : DpiObjectType :=
  { conn := some 0, schema := some "S", name := some "N",
    elementTypeInfo := { objectType := some 1 } }

/-- Concrete describe oracle for a plain (non-collection) type. -/
def descExtW : DescribeExt :=
  { describeAnyOk := true, topParam := some 10,
    typeCodeOf := fun _ => some 108, numAttrsOf := fun _ => some 3,
    collectionParamOf := fun _ => none, elemInfoOf := fun _ => none }

/-- Concrete describe oracle for a collection type. -/
def descExtNcoW : DescribeExt :=
  { describeAnyOk := true, topParam := some 10,
    typeCodeOf := fun _ => some DPI_SQLT_NCO, numAttrsOf := fun _ => some 0,
    collectionParamOf := fun p => some (p + 40),
    elemInfoOf := fun cp => some { oracleTypeNum := cp, objectType := some 9 } }

/-- Concrete init oracle where every external call succeeds (plain type). -/
def initExtW : InitExt :=
  { schemaStr := some "SCHEMA", nameStr := some "PERSON_T", tdoRef := some 5,
    pin := some 6, ctxAllocOk := true, desc := descExtW }

/-- Concrete init oracle where every external call succeeds (collection). -/
def initExtNcoW : InitExt := { initExtW with desc := descExtNcoW }

/-- Concrete getAttributes oracle where the describe call fails. -/
def gaExtBadW : GetAttrExt :=
  { ctxAllocOk := true, describeAnyOk := false, topParam := none,
    attrListParamOf := fun _ => none, subParamAt := fun _ _ => none,
    attrAlloc := fun _ => none }

/-- Concrete getAttributes oracle where every external call succeeds. -/
def gaExtOkW : GetAttrExt :=
  { ctxAllocOk := true, describeAnyOk := true, topParam := some 10,
    attrListParamOf := fun p => some (p + 1),
    subParamAt := fun alp pos => some (alp * 100 + pos),
    attrAlloc := fun ap => some (ap + 7) }

lemma dpiObjectType__describe_anatomy (ext : DescribeExt) (t : DpiObjectType)
    (c : Nat) (s : DpiSt) :
    (dpiObjectType__describe ext t c s).2.2 = s.emit (DpiEv.describeAny c t.tdo) ∧
    (dpiObjectType__describe ext t c s).2.1.tdo = t.tdo ∧
    (dpiObjectType__describe ext t c s).2.1.conn = t.conn ∧
    (dpiObjectType__describe ext t c s).2.1.schema = t.schema ∧
    (dpiObjectType__describe ext t c s).2.1.name = t.name ∧
    ((dpiObjectType__describe ext t c s).1 = false →
      (dpiObjectType__describe ext t c s).2.1.elementTypeInfo = t.elementTypeInfo) ∧
    ((dpiObjectType__describe ext t c s).1 = true →
      ext.describeAnyOk = true ∧
      ∃ p tc n, ext.topParam = some p ∧ ext.typeCodeOf p = some tc ∧
        ext.numAttrsOf p = some n ∧
        (dpiObjectType__describe ext t c s).2.1.typeCode = tc ∧
        (dpiObjectType__describe ext t c s).2.1.numAttributes = n ∧
        (tc = DPI_SQLT_NCO →
          (dpiObjectType__describe ext t c s).2.1.isCollection = true ∧
          ∃ cp info, ext.collectionParamOf p = some cp ∧
            ext.elemInfoOf cp = some info ∧
            (dpiObjectType__describe ext t c s).2.1.elementTypeInfo = info) ∧
        (tc ≠ DPI_SQLT_NCO →
          (dpiObjectType__describe ext t c s).2.1.isCollection = t.isCollection ∧
          (dpiObjectType__describe ext t c s).2.1.elementTypeInfo = t.elementTypeInfo)) := by
  cases hOk : ext.describeAnyOk
  · simp [dpiObjectType__describe, hOk]
  · rcases hp : ext.topParam with _ | p
    · simp [dpiObjectType__describe, hOk, hp]
    · rcases htc : ext.typeCodeOf p with _ | tc
      · simp [dpiObjectType__describe, hOk, hp, htc]
      · rcases hn : ext.numAttrsOf p with _ | n
        · simp [dpiObjectType__describe, hOk, hp, htc, hn]
        · by_cases hnco : tc = DPI_SQLT_NCO
          · rcases hcp : ext.collectionParamOf p with _ | cp
            · simp [dpiObjectType__describe, hOk, hp, htc, hn, hnco, hcp]
            · rcases hei : ext.elemInfoOf cp with _ | info
              · simp [dpiObjectType__describe, hOk, hp, htc, hn, hnco, hcp, hei]
              · simp [dpiObjectType__describe, hOk, hp, htc, hn, hnco, hcp, hei]
          · simp [dpiObjectType__describe, hOk, hp, htc, hn, hnco]

lemma dpiObjectType__init_anatomy (ext : InitExt) (t : DpiObjectType) (s : DpiSt) :
    ((dpiObjectType__init ext t s).2.2 = s ∨
      ∃ d, ext.pin = some d ∧
        (dpiObjectType__init ext t s).2.2 =
          { s with ctxNext := s.ctxNext + 1,
                   trace := s.trace ++ [DpiEv.ctxAlloc s.ctxNext,
                     DpiEv.describeAny s.ctxNext (some d),
                     DpiEv.ctxFree s.ctxNext] }) ∧
    (dpiObjectType__init ext t s).2.1.conn = t.conn ∧
    ((dpiObjectType__init ext t s).1 = false →
      (dpiObjectType__init ext t s).2.1.elementTypeInfo = t.elementTypeInfo) ∧
    ((dpiObjectType__init ext t s).1 = true →
      ∃ d, ext.pin = some d ∧
        (dpiObjectType__init ext t s).2.1.tdo = some d ∧
        (dpiObjectType__init ext t s).2.2 =
          { s with ctxNext := s.ctxNext + 1,
                   trace := s.trace ++ [DpiEv.ctxAlloc s.ctxNext,
                     DpiEv.describeAny s.ctxNext (some d),
                     DpiEv.ctxFree s.ctxNext] } ∧
        ∃ p tc n, ext.desc.topParam = some p ∧ ext.desc.typeCodeOf p = some tc ∧
          ext.desc.numAttrsOf p = some n ∧
          (dpiObjectType__init ext t s).2.1.typeCode = tc ∧
          (dpiObjectType__init ext t s).2.1.numAttributes = n ∧
          (tc = DPI_SQLT_NCO →
            (dpiObjectType__init ext t s).2.1.isCollection = true ∧
            ∃ cp info, ext.desc.collectionParamOf p = some cp ∧
              ext.desc.elemInfoOf cp = some info ∧
              (dpiObjectType__init ext t s).2.1.elementTypeInfo = info) ∧
          (tc ≠ DPI_SQLT_NCO →
            (dpiObjectType__init ext t s).2.1.isCollection = t.isCollection ∧
            (dpiObjectType__init ext t s).2.1.elementTypeInfo = t.elementTypeInfo)) := by
  rcases hsc : ext.schemaStr with _ | sc
  · simp [dpiObjectType__init, hsc]
  rcases hnm : ext.nameStr with _ | nm
  · simp [dpiObjectType__init, hsc, hnm]
  rcases htr : ext.tdoRef with _ | tr
  · simp [dpiObjectType__init, hsc, hnm, htr]
  rcases hpin : ext.pin with _ | d
  · simp [dpiObjectType__init, hsc, hnm, htr, hpin]
  cases hca : ext.ctxAllocOk
  · simp [dpiObjectType__init, dpiOci__handleAlloc, hsc, hnm, htr, hpin, hca]
  · have key := dpiObjectType__describe_anatomy ext.desc
      { t with schema := some sc, schemaLength := sc.length,
               name := some nm, nameLength := nm.length, tdo := some d }
      s.ctxNext
      { s with ctxNext := s.ctxNext + 1, ctxLive := s.ctxNext :: s.ctxLive,
               trace := s.trace ++ [DpiEv.ctxAlloc s.ctxNext] }
    rcases hdesc : dpiObjectType__describe ext.desc
      { t with schema := some sc, schemaLength := sc.length,
               name := some nm, nameLength := nm.length, tdo := some d }
      s.ctxNext
      { s with ctxNext := s.ctxNext + 1, ctxLive := s.ctxNext :: s.ctxLive,
               trace := s.trace ++ [DpiEv.ctxAlloc s.ctxNext] } with ⟨ok, t2, s2⟩
    rw [hdesc] at key
    simp only [DpiSt.emit] at key
    obtain ⟨hs2, htdo2, hconn2, hschema2, hname2, hfail2, hsucc2⟩ := key
    have hfree : dpiOci__handleFree s.ctxNext s2 =
        { s with ctxNext := s.ctxNext + 1,
                 trace := s.trace ++ [DpiEv.ctxAlloc s.ctxNext,
                   DpiEv.describeAny s.ctxNext (some d),
                   DpiEv.ctxFree s.ctxNext] } := by
      subst hs2
      simp [dpiOci__handleFree, List.erase_cons_head]
    simp only [dpiObjectType__init, hsc, hnm, htr, hpin, hca,
      dpiOci__handleAlloc, if_true, hdesc]
    refine ⟨?_, ?_, ?_, ?_⟩
    · exact Or.inr ⟨d, rfl, hfree⟩
    · simpa using hconn2
    · intro hko
      simpa using hfail2 hko
    · intro hks
      obtain ⟨hdok, p, tc, n, hp, htc, hn, htcv, hnv, hnco, hnnco⟩ := hsucc2 hks
      refine ⟨d, rfl, by simpa using htdo2, hfree, p, tc, n, hp, htc, hn, htcv, hnv, ?_, ?_⟩
      · intro h
        exact hnco h
      · intro h
        obtain ⟨h1, h2⟩ := hnnco h
        exact ⟨by simpa using h1, by simpa using h2⟩

lemma dpiObjectType__free_default (s : DpiSt) :
    dpiObjectType__free {} s = s.emit DpiEv.freeStorage := by
  simp [dpiObjectType__free]

lemma dpiObjectType__free_conn_anatomy (t : DpiObjectType) (s : DpiSt)
    (connId : Nat) (hc : t.conn = some connId)
    (he : t.elementTypeInfo.objectType = none) :
    (dpiObjectType__free t s).ctxLive = s.ctxLive ∧
    (dpiObjectType__free t s).badFree = s.badFree ∧
    (dpiObjectType__free t s).refCount connId = s.refCount connId - 1 ∧
    (dpiObjectType__free t s).trace = s.trace ++
      ([DpiEv.decRef connId] ++
       (if t.schema.isSome then [DpiEv.freeSchema] else []) ++
       (if t.name.isSome then [DpiEv.freeName] else []) ++
       [DpiEv.freeStorage]) := by
  cases hsch : t.schema.isSome <;> cases hnm : t.name.isSome <;>
    simp [dpiObjectType__free, dpiGen__decRef, DpiSt.emit, hc, he, hsch, hnm]

lemma dpiObjectType__free_full_anatomy (t : DpiObjectType) (s : DpiSt)
    (c e : Nat) (hc : t.conn = some c)
    (he : t.elementTypeInfo.objectType = some e)
    (hsch : t.schema.isSome = true) (hnm : t.name.isSome = true) :
    (dpiObjectType__free t s).trace = s.trace ++
      [DpiEv.decRef c, DpiEv.decRef e, DpiEv.freeSchema, DpiEv.freeName,
       DpiEv.freeStorage] := by
  simp [dpiObjectType__free, dpiGen__decRef, DpiSt.emit, hc, he, hsch, hnm]

lemma dpiObjectType_getAttrLoop_state (ext : GetAttrExt) (alp : Nat) :
    ∀ (idxs : List Nat) (dest : Nat → Option Nat) (s : DpiSt),
    ∃ l, (dpiObjectType_getAttrLoop ext alp idxs dest s).2 =
        { s with trace := s.trace ++ l } ∧
      ∀ e ∈ l, ∃ pos, e = DpiEv.subParamGet pos := by
  intro idxs
  induction idxs with
  | nil =>
    intro dest s
    exact ⟨[], by simp [dpiObjectType_getAttrLoop], by simp⟩
  | cons i rest ih =>
    intro dest s
    rcases hsp : ext.subParamAt alp (i + 1) with _ | ap
    · refine ⟨[DpiEv.subParamGet (i + 1)], ?_, ?_⟩
      · simp [dpiObjectType_getAttrLoop, hsp, DpiSt.emit]
      · simp
    · rcases haa : ext.attrAlloc ap with _ | a
      · refine ⟨[DpiEv.subParamGet (i + 1)], ?_, ?_⟩
        · simp [dpiObjectType_getAttrLoop, hsp, haa, DpiSt.emit]
        · simp
      · obtain ⟨l, hl, hall⟩ := ih (fun j => if j = i then some a else dest j)
          (s.emit (DpiEv.subParamGet (i + 1)))
        refine ⟨DpiEv.subParamGet (i + 1) :: l, ?_, ?_⟩
        · simp only [dpiObjectType_getAttrLoop, hsp, haa]
          rw [hl]
          simp [DpiSt.emit]
        · intro e hmem
          rcases List.mem_cons.mp hmem with h | h
          · exact ⟨i + 1, h⟩
          · exact hall e h

lemma dpiObjectType_getAttrLoop_success (ext : GetAttrExt) (alp : Nat) :
    ∀ (idxs : List Nat) (dest : Nat → Option Nat) (s : DpiSt)
      (dest2 : Nat → Option Nat) (s2 : DpiSt),
    dpiObjectType_getAttrLoop ext alp idxs dest s = (some dest2, s2) →
    idxs.Nodup →
    (∀ i ∈ idxs, ∃ ap a, ext.subParamAt alp (i + 1) = some ap ∧
        ext.attrAlloc ap = some a ∧ dest2 i = some a) ∧
    (∀ j, j ∉ idxs → dest2 j = dest j) := by
  intro idxs
  induction idxs with
  | nil =>
    intro dest s dest2 s2 heq _
    simp [dpiObjectType_getAttrLoop] at heq
    obtain ⟨h1, _⟩ := heq
    subst h1
    exact ⟨by simp, fun j _ => rfl⟩
  | cons i rest ih =>
    intro dest s dest2 s2 heq hnd
    rcases hsp : ext.subParamAt alp (i + 1) with _ | ap
    · simp [dpiObjectType_getAttrLoop, hsp] at heq
    · rcases haa : ext.attrAlloc ap with _ | a
      · simp [dpiObjectType_getAttrLoop, hsp, haa] at heq
      · rw [dpiObjectType_getAttrLoop] at heq
        simp only [hsp, haa] at heq
        have hnd2 := List.nodup_cons.mp hnd
        obtain ⟨hrest, hout⟩ := ih (fun j => if j = i then some a else dest j)
          (s.emit (DpiEv.subParamGet (i + 1))) dest2 s2 heq hnd2.2
        refine ⟨?_, ?_⟩
        · intro x hx
          rcases List.mem_cons.mp hx with h | h
          · subst h
            refine ⟨ap, a, hsp, haa, ?_⟩
            have := hout x hnd2.1
            simpa using this
          · exact hrest x h
        · intro j hj
          have hji : j ≠ i := fun h => hj (h ▸ List.mem_cons_self i rest)
          have hjr : j ∉ rest := fun h => hj (List.mem_cons_of_mem i h)
          have := hout j hjr
          simpa [hji] using this

lemma dpiObjectType_getAttributes_unfold_long (ext : GetAttrExt)
    (t : DpiObjectType) (cap : Nat) (dest : Nat → Option Nat) (s : DpiSt)
    (p alp : Nat) (hlt : ¬ cap < t.numAttributes) (hz : ¬ cap = 0)
    (hca : ext.ctxAllocOk = true) (hd : ext.describeAnyOk = true)
    (hp : ext.topParam = some p) (hal : ext.attrListParamOf p = some alp) :
    dpiObjectType_getAttributes ext true t cap false dest s =
      (match dpiObjectType_getAttrLoop ext alp (List.range t.numAttributes) dest
          (DpiSt.emit (dpiOci__handleAlloc true s).2 (DpiEv.describeAny s.ctxNext t.tdo)) with
       | (none, s5) => (Except.error DpiErr.externalError, dest, dpiOci__handleFree s.ctxNext s5)
       | (some d5, s5) => (Except.ok (), d5, dpiOci__handleFree s.ctxNext s5)) := by
  simp only [dpiObjectType_getAttributes, dpiOci__handleAlloc, hca, hd, hp, hal,
    hlt, hz, if_true, if_false, ite_false, ite_true]
  rfl

lemma dpiObjectType_getAttributes_anatomy (ext : GetAttrExt) (valid : Bool)
    (t : DpiObjectType) (cap : Nat) (attrsNull : Bool)
    (dest : Nat → Option Nat) (s : DpiSt) :
    ((dpiObjectType_getAttributes ext valid t cap attrsNull dest s).2.2 = s ∧
     (dpiObjectType_getAttributes ext valid t cap attrsNull dest s).2.1 = dest) ∨
    (∃ l, (∀ e ∈ l, ∃ pos, e = DpiEv.subParamGet pos) ∧
      (dpiObjectType_getAttributes ext valid t cap attrsNull dest s).2.2 =
        { s with ctxNext := s.ctxNext + 1,
                 trace := s.trace ++ [DpiEv.ctxAlloc s.ctxNext,
                   DpiEv.describeAny s.ctxNext t.tdo] ++ l ++
                   [DpiEv.ctxFree s.ctxNext] }) := by
  cases valid
  case false => exact Or.inl ⟨rfl, rfl⟩
  cases attrsNull
  case true => exact Or.inl ⟨rfl, rfl⟩
  by_cases hlt : cap < t.numAttributes
  · left
    constructor <;> simp [dpiObjectType_getAttributes, hlt]
  by_cases hz : cap = 0
  · left
    rcases Nat.eq_zero_or_pos t.numAttributes with hna | hna
    · constructor <;> simp [dpiObjectType_getAttributes, hlt, hz, hna]
    · constructor <;> simp [dpiObjectType_getAttributes, hlt, hz, hna]
  cases hca : ext.ctxAllocOk
  · left
    constructor <;>
      simp [dpiObjectType_getAttributes, dpiOci__handleAlloc, hlt, hz, hca]
  cases hd : ext.describeAnyOk
  · right
    refine ⟨[], by simp, ?_⟩
    simp [dpiObjectType_getAttributes, dpiOci__handleAlloc, dpiOci__handleFree,
      DpiSt.emit, hlt, hz, hca, hd, List.erase_cons_head]
  rcases hp : ext.topParam with _ | p
  · right
    refine ⟨[], by simp, ?_⟩
    simp [dpiObjectType_getAttributes, dpiOci__handleAlloc, dpiOci__handleFree,
      DpiSt.emit, hlt, hz, hca, hd, hp, List.erase_cons_head]
  rcases hal : ext.attrListParamOf p with _ | alp
  · right
    refine ⟨[], by simp, ?_⟩
    simp [dpiObjectType_getAttributes, dpiOci__handleAlloc, dpiOci__handleFree,
      DpiSt.emit, hlt, hz, hca, hd, hp, hal, List.erase_cons_head]
  right
  rw [dpiObjectType_getAttributes_unfold_long ext t cap dest s p alp hlt hz hca hd hp hal]
  obtain ⟨l, hl, hall⟩ := dpiObjectType_getAttrLoop_state ext alp
    (List.range t.numAttributes) dest
    (DpiSt.emit (dpiOci__handleAlloc true s).2 (DpiEv.describeAny s.ctxNext t.tdo))
  rcases hloop : dpiObjectType_getAttrLoop ext alp (List.range t.numAttributes) dest
      (DpiSt.emit (dpiOci__handleAlloc true s).2 (DpiEv.describeAny s.ctxNext t.tdo))
    with ⟨r5, s5⟩
  rw [hloop] at hl
  dsimp only at hl
  refine ⟨l, hall, ?_⟩
  have hs5 : s5 =
      { s with ctxNext := s.ctxNext + 1,
               ctxLive := s.ctxNext :: s.ctxLive,
               trace := (s.trace ++ [DpiEv.ctxAlloc s.ctxNext,
                 DpiEv.describeAny s.ctxNext t.tdo]) ++ l } := by
    rw [hl]
    simp [DpiSt.emit, dpiOci__handleAlloc]
  cases r5 <;>
    simp [dpiOci__handleFree, hs5, List.erase_cons_head]

/-- C6: on a valid TypeDescriptor, with a caller-supplied capacity strictly
below the descriptor's attribute count, `dpiObjectType_getAttributes`
returns the `arraySizeTooSmall` error, leaves the caller's destination
array completely untouched, and changes nothing in the observable state. -/
theorem getAttributes_array_size_too_small (ext : GetAttrExt)
    (t : DpiObjectType) (cap : Nat) (dest : Nat → Option Nat) (s : DpiSt)
    (hlt : cap < t.numAttributes) :
    dpiObjectType_getAttributes ext true t cap false dest s =
      (Except.error DpiErr.arraySizeTooSmall, dest, s) := by
  simp [dpiObjectType_getAttributes, hlt]

/-- Witness for C6: capacity 2 against a three-attribute descriptor. -/
theorem getAttributes_array_size_too_small_witness :
    2 < tW3.numAttributes ∧
    dpiObjectType_getAttributes gaExtBadW true tW3 2 false destW s0 =
      (Except.error DpiErr.arraySizeTooSmall, destW, s0) :=
  ⟨by decide,
   getAttributes_array_size_too_small gaExtBadW tW3 2 destW s0 (by decide)⟩

/-- C5 counterexample: on a perfectly valid handle `dpiObjectType_getInfo`
can still fail — a null info out-pointer yields the null-pointer error —
so an invalid handle is not the only failure cause. -/
theorem getInfo_fails_on_valid_handle_counterexample :
    (dpiObjectType_getInfo true true tW3 s0).1 =
      Except.error DpiErr.nullPointer := by
  rfl

/-- C5 (amended): `dpiObjectType_getInfo` is side-effect free — it returns
the observable state unchanged, so no descriptor field and no reference
count changes — and on a valid handle with a non-null out-pointer it
returns the read-only snapshot of the descriptor's fields; it fails only
when the handle is invalid or the out-pointer is null. -/
theorem getInfo_readonly_snapshot (valid infoNull : Bool)
    (t : DpiObjectType) (s : DpiSt) :
    (dpiObjectType_getInfo valid infoNull t s).2 = s ∧
    (valid = true → infoNull = false →
      (dpiObjectType_getInfo valid infoNull t s).1 = Except.ok
        { name := t.name, nameLength := t.nameLength, schema := t.schema,
          schemaLength := t.schemaLength, isCollection := t.isCollection,
          elementTypeInfo := t.elementTypeInfo,
          numAttributes := t.numAttributes }) ∧
    (∀ e, (dpiObjectType_getInfo valid infoNull t s).1 = Except.error e →
      valid = false ∨ infoNull = true) := by
  cases valid <;> cases infoNull <;> simp [dpiObjectType_getInfo]

/-- C1: `dpiObjectType_createObject` either succeeds, returning a new
object instance while incrementing the type descriptor's reference count
by exactly one (the new instance is the one new live instance), or fails
with an error, leaving the descriptor's reference count unchanged and the
live-instance set unchanged — the partially built instance is torn down
before the error is reported, and no instance is returned on error. -/
theorem createObject_refcount_and_teardown (ext : CreateExt)
    (valid objNull : Bool) (tdId : Nat) (s : DpiSt) :
    (∃ o, (dpiObjectType_createObject ext valid objNull tdId s).1 =
        Except.ok o ∧
      (dpiObjectType_createObject ext valid objNull tdId s).2.refCount tdId =
        s.refCount tdId + 1 ∧
      (dpiObjectType_createObject ext valid objNull tdId s).2.objLive =
        o :: s.objLive) ∨
    ((∃ e, (dpiObjectType_createObject ext valid objNull tdId s).1 =
        Except.error e) ∧
      (dpiObjectType_createObject ext valid objNull tdId s).2.refCount tdId =
        s.refCount tdId ∧
      (dpiObjectType_createObject ext valid objNull tdId s).2.objLive =
        s.objLive) := by
  cases valid
  · exact Or.inr ⟨⟨DpiErr.invalidHandle, rfl⟩, rfl, rfl⟩
  cases objNull
  case true => exact Or.inr ⟨⟨DpiErr.nullPointer, rfl⟩, rfl, rfl⟩
  cases ha : ext.allocOk
  · right
    refine ⟨⟨DpiErr.externalError, ?_⟩, ?_, ?_⟩ <;>
      simp [dpiObjectType_createObject, dpiObject__allocate, ha]
  cases hn : ext.objectNewOk
  · right
    refine ⟨⟨DpiErr.externalError, ?_⟩, ?_, ?_⟩ <;>
      simp [dpiObjectType_createObject, dpiObject__allocate,
        dpiObject__release, dpiGen__incRef, dpiGen__decRef, ha, hn,
        List.erase_cons_head]
  cases hg : ext.objectGetIndOk
  · right
    refine ⟨⟨DpiErr.externalError, ?_⟩, ?_, ?_⟩ <;>
      simp [dpiObjectType_createObject, dpiObject__allocate,
        dpiObject__release, dpiGen__incRef, dpiGen__decRef, ha, hn, hg,
        List.erase_cons_head]
  · left
    refine ⟨s.objNext, ?_, ?_, ?_⟩ <;>
      simp [dpiObjectType_createObject, dpiObject__allocate, dpiGen__incRef,
        ha, hn, hg]

/-- C4 counterexample: on a valid descriptor with zero attributes but a
positive caller capacity, `dpiObjectType_getAttributes` is not a trivial
no-op — it allocates a describe context (the allocation event appears in
the trace) and performs the external describe, and when that describe
fails the whole call fails instead of succeeding. -/
theorem getAttributes_zero_attrs_counterexample :
    ({} : DpiObjectType).numAttributes = 0 ∧
    (dpiObjectType_getAttributes gaExtBadW true {} 1 false destW s0).1 =
      Except.error DpiErr.externalError ∧
    (traceDelta s0
      (dpiObjectType_getAttributes gaExtBadW true {} 1 false destW
        s0).2.2).countP isCtxAllocEv = 1 :=
  ⟨rfl, rfl, rfl⟩

/-- C4 (amended): on a valid TypeDescriptor with `numAttributes = 0`,
`dpiObjectType_getAttributes` never writes to the destination array, and
it is a trivial no-op success exactly when the caller-supplied capacity is
0; with a positive capacity it still allocates a describe context and
performs the external describe of the type, succeeding (with zero
attributes written) precisely when those external calls succeed. -/
theorem getAttributes_zero_attrs_amended (ext : GetAttrExt)
    (t : DpiObjectType) (cap : Nat) (dest : Nat → Option Nat) (s : DpiSt)
    (hna : t.numAttributes = 0) :
    ((dpiObjectType_getAttributes ext true t cap false dest s).2.1 = dest) ∧
    (cap = 0 →
      dpiObjectType_getAttributes ext true t cap false dest s =
        (Except.ok (), dest, s)) ∧
    (cap ≠ 0 →
      ((dpiObjectType_getAttributes ext true t cap false dest s).1 =
          Except.ok () ↔
        ext.ctxAllocOk = true ∧ ext.describeAnyOk = true ∧
        ∃ p alp, ext.topParam = some p ∧ ext.attrListParamOf p = some alp)) ∧
    (cap ≠ 0 → ext.ctxAllocOk = true →
      DpiEv.describeAny s.ctxNext t.tdo ∈
        traceDelta s
          (dpiObjectType_getAttributes ext true t cap false dest s).2.2) := by
  by_cases hz : cap = 0
  · refine ⟨?_, ?_, ?_, ?_⟩
    · simp [dpiObjectType_getAttributes, hna, hz]
    · intro _
      simp [dpiObjectType_getAttributes, hna, hz]
    · intro hc
      exact absurd hz hc
    · intro hc
      exact absurd hz hc
  · cases hca : ext.ctxAllocOk
    · refine ⟨?_, fun h => absurd h hz, ?_, ?_⟩
      · simp [dpiObjectType_getAttributes, dpiOci__handleAlloc, hna, hz, hca]
      · intro _
        simp [dpiObjectType_getAttributes, dpiOci__handleAlloc, hna, hz, hca]
      · intro _ hcontra
        exact absurd hcontra (by simp [hca])
    · cases hd : ext.describeAnyOk
      · refine ⟨?_, fun h => absurd h hz, ?_, ?_⟩
        · simp [dpiObjectType_getAttributes, dpiOci__handleAlloc,
            dpiOci__handleFree, DpiSt.emit, hna, hz, hca, hd]
        · intro _
          simp [dpiObjectType_getAttributes, dpiOci__handleAlloc,
            dpiOci__handleFree, DpiSt.emit, hna, hz, hca, hd]
        · intro _ _
          simp [dpiObjectType_getAttributes, dpiOci__handleAlloc,
            dpiOci__handleFree, DpiSt.emit, traceDelta, hna, hz, hca, hd,
            List.erase_cons_head]
      · rcases hp : ext.topParam with _ | p
        · refine ⟨?_, fun h => absurd h hz, ?_, ?_⟩
          · simp [dpiObjectType_getAttributes, dpiOci__handleAlloc,
              dpiOci__handleFree, DpiSt.emit, hna, hz, hca, hd, hp]
          · intro _
            simp [dpiObjectType_getAttributes, dpiOci__handleAlloc,
              dpiOci__handleFree, DpiSt.emit, hna, hz, hca, hd, hp]
          · intro _ _
            simp [dpiObjectType_getAttributes, dpiOci__handleAlloc,
              dpiOci__handleFree, DpiSt.emit, traceDelta, hna, hz, hca, hd,
              hp, List.erase_cons_head]
        · rcases hal : ext.attrListParamOf p with _ | alp
          · refine ⟨?_, fun h => absurd h hz, ?_, ?_⟩
            · simp [dpiObjectType_getAttributes, dpiOci__handleAlloc,
                dpiOci__handleFree, DpiSt.emit, hna, hz, hca, hd, hp, hal]
            · intro _
              simp [dpiObjectType_getAttributes, dpiOci__handleAlloc,
                dpiOci__handleFree, DpiSt.emit, hna, hz, hca, hd, hp, hal]
            · intro _ _
              simp [dpiObjectType_getAttributes, dpiOci__handleAlloc,
                dpiOci__handleFree, DpiSt.emit, traceDelta, hna, hz, hca,
                hd, hp, hal, List.erase_cons_head]
          · refine ⟨?_, fun h => absurd h hz, ?_, ?_⟩
            · simp [dpiObjectType_getAttributes, dpiOci__handleAlloc,
                dpiOci__handleFree, dpiObjectType_getAttrLoop, DpiSt.emit,
                hna, hz, hca, hd, hp, hal]
            · intro _
              simp [dpiObjectType_getAttributes, dpiOci__handleAlloc,
                dpiOci__handleFree, dpiObjectType_getAttrLoop, DpiSt.emit,
                hna, hz, hca, hd, hp, hal]
            · intro _ _
              simp [dpiObjectType_getAttributes, dpiOci__handleAlloc,
                dpiOci__handleFree, dpiObjectType_getAttrLoop, DpiSt.emit,
                traceDelta, hna, hz, hca, hd, hp, hal, List.erase_cons_head]

/-- Witness for C4 (amended): a zero-attribute descriptor with capacity 1
against an all-succeeding oracle — the call succeeds and the describe
event is in the trace. -/
theorem getAttributes_zero_attrs_amended_witness :
    ({} : DpiObjectType).numAttributes = 0 ∧
    ((dpiObjectType_getAttributes gaExtOkW true {} 1 false destW s0).1 =
        Except.ok () ↔
      gaExtOkW.ctxAllocOk = true ∧ gaExtOkW.describeAnyOk = true ∧
      ∃ p alp, gaExtOkW.topParam = some p ∧
        gaExtOkW.attrListParamOf p = some alp) :=
  ⟨rfl, (getAttributes_zero_attrs_amended gaExtOkW {} 1 destW s0 rfl).2.2.1
    (by decide)⟩

/-- C3: `dpiObjectType__free` on a populated descriptor decrements the
connection's reference count exactly once, decrements the nested element
TypeDescriptor's reference count exactly once, frees the schema and name
strings exactly once each, and frees the descriptor's storage last; and
releasing the outer descriptor's last reference through the registry
(count 1 reaching 0) runs exactly this teardown, so the inner element
descriptor's count is decremented exactly once. -/
theorem objectType_free_releases_each_once (t : DpiObjectType) (s : DpiSt)
    (c e : Nat) (hc : t.conn = some c)
    (he : t.elementTypeInfo.objectType = some e) (hne : c ≠ e)
    (hsch : t.schema.isSome = true) (hnm : t.name.isSome = true) :
    (traceDelta s (dpiObjectType__free t s)).count (DpiEv.decRef c) = 1 ∧
    (traceDelta s (dpiObjectType__free t s)).count (DpiEv.decRef e) = 1 ∧
    (traceDelta s (dpiObjectType__free t s)).count DpiEv.freeSchema = 1 ∧
    (traceDelta s (dpiObjectType__free t s)).count DpiEv.freeName = 1 ∧
    (traceDelta s (dpiObjectType__free t s)).count DpiEv.freeStorage = 1 ∧
    (traceDelta s (dpiObjectType__free t s)).getLast? =
      some DpiEv.freeStorage ∧
    (dpiGen__releaseObjectType t 1 s).1 = 0 ∧
    (dpiGen__releaseObjectType t 1 s).2 = dpiObjectType__free t s := by
  have htr := dpiObjectType__free_full_anatomy t s c e hc he hsch hnm
  have hdelta : traceDelta s (dpiObjectType__free t s) =
      [DpiEv.decRef c, DpiEv.decRef e, DpiEv.freeSchema, DpiEv.freeName,
       DpiEv.freeStorage] := by
    rw [traceDelta, htr, List.drop_left]
  rw [hdelta]
  refine ⟨?_, ?_, ?_, ?_, ?_, rfl, rfl, rfl⟩ <;>
    simp [List.count_cons, hne, Ne.symm hne]

/-- Witness for C3: a collection descriptor owned by connection 0 whose
element descriptor is handle 1; freeing it decrements handle 1 once. -/
theorem objectType_free_releases_each_once_witness :
    tFullW.conn = some 0 ∧ tFullW.elementTypeInfo.objectType = some 1 ∧
    (0 : Nat) ≠ 1 ∧ tFullW.schema.isSome = true ∧
    tFullW.name.isSome = true ∧
    (traceDelta s0 (dpiObjectType__free tFullW s0)).count
      (DpiEv.decRef 1) = 1 :=
  ⟨rfl, rfl, by decide, rfl, rfl,
   (objectType_free_releases_each_once tFullW s0 0 1 rfl rfl (by decide)
     rfl rfl).2.1⟩

/-- C7: after a successful describe (run through `dpiObjectType__init` on
a freshly allocated descriptor, whose `isCollection` and `elementTypeInfo`
still hold their zero-initialized values), if the type code read from the
external service denotes a collection then the descriptor has
`isCollection = true` and `elementTypeInfo` populated with the value
resolved from the collection-element sub-parameter; for any other type
code the descriptor keeps `isCollection = false` and `elementTypeInfo` in
its zero-initialized state. -/
theorem describe_collection_classification (ext : InitExt)
    (t t2 : DpiObjectType) (s s2 : DpiSt)
    (hcoll : t.isCollection = false) (helem : t.elementTypeInfo = {})
    (hsucc : dpiObjectType__init ext t s = (true, t2, s2)) :
    ∃ p, ext.desc.topParam = some p ∧
      ext.desc.typeCodeOf p = some t2.typeCode ∧
      (t2.typeCode = DPI_SQLT_NCO →
        t2.isCollection = true ∧
        ∃ cp info, ext.desc.collectionParamOf p = some cp ∧
          ext.desc.elemInfoOf cp = some info ∧ t2.elementTypeInfo = info) ∧
      (t2.typeCode ≠ DPI_SQLT_NCO →
        t2.isCollection = false ∧ t2.elementTypeInfo = {}) := by
  have h := dpiObjectType__init_anatomy ext t s
  rw [hsucc] at h
  dsimp only at h
  obtain ⟨d, hd, htdo, hst, p, tc, n, hp, htc, hn, htcv, hnv, hnco, hnnco⟩ :=
    h.2.2.2 rfl
  refine ⟨p, hp, ?_, ?_, ?_⟩
  · rw [htcv]
    exact htc
  · intro hcode
    exact hnco (htcv ▸ hcode)
  · intro hcode
    obtain ⟨h1, h2⟩ := hnnco (htcv ▸ hcode)
    exact ⟨h1.trans hcoll, h2.trans helem⟩

/-- Witness for C7: describing a collection type on a fresh descriptor
yields a descriptor marked as a collection. -/
theorem describe_collection_classification_witness :
    tConnW.isCollection = false ∧ tConnW.elementTypeInfo = {} ∧
    (dpiObjectType__init initExtNcoW tConnW s0).2.1.isCollection = true := by
  refine ⟨rfl, rfl, ?_⟩
  obtain ⟨p, hp, htc, hnco, hnnco⟩ :=
    describe_collection_classification initExtNcoW tConnW
      (dpiObjectType__init initExtNcoW tConnW s0).2.1 s0
      (dpiObjectType__init initExtNcoW tConnW s0).2.2 rfl rfl rfl
  exact (hnco rfl).1

/-- C9: on every successful run, `dpiObjectType__init` allocates a
separate fresh describe context (a new serial) after pinning the TDO,
performs the describe of the pinned definition through that context — the
second describe is never skipped — reads both the type code and the
attribute count from the top-level result of that describe, and releases
the context: the run appends exactly the allocation, describe and release
events for the fresh serial. -/
theorem init_mandatory_second_describe (ext : InitExt)
    (t t2 : DpiObjectType) (s s2 : DpiSt)
    (hsucc : dpiObjectType__init ext t s = (true, t2, s2)) :
    ∃ d, ext.pin = some d ∧ t2.tdo = some d ∧
      traceDelta s s2 =
        [DpiEv.ctxAlloc s.ctxNext, DpiEv.describeAny s.ctxNext (some d),
         DpiEv.ctxFree s.ctxNext] ∧
      ∃ p, ext.desc.topParam = some p ∧
        ext.desc.typeCodeOf p = some t2.typeCode ∧
        ext.desc.numAttrsOf p = some t2.numAttributes := by
  have h := dpiObjectType__init_anatomy ext t s
  rw [hsucc] at h
  dsimp only at h
  obtain ⟨d, hd, htdo, hst, p, tc, n, hp, htc, hn, htcv, hnv, -, -⟩ :=
    h.2.2.2 rfl
  refine ⟨d, hd, htdo, ?_, p, hp, ?_, ?_⟩
  · rw [traceDelta, hst]
    exact List.drop_left s.trace _
  · rw [htcv]
    exact htc
  · rw [hnv]
    exact hn

/-- Witness for C9: a successful init run on a fresh state allocates
context 0, describes the pinned TDO 6 through it, releases it, and the
stored attribute count is the value 3 read from that describe. -/
theorem init_mandatory_second_describe_witness :
    traceDelta s0 (dpiObjectType__init initExtW tConnW s0).2.2 =
      [DpiEv.ctxAlloc 0, DpiEv.describeAny 0 (some 6), DpiEv.ctxFree 0] ∧
    (dpiObjectType__init initExtW tConnW s0).2.1.numAttributes = 3 := by
  obtain ⟨d, hd, htdo, hdelta, p, hp, htc, hnum⟩ :=
    init_mandatory_second_describe initExtW tConnW
      (dpiObjectType__init initExtW tConnW s0).2.1 s0
      (dpiObjectType__init initExtW tConnW s0).2.2 rfl
  have hd6 : some d = some 6 := hd.symm.trans rfl
  have : d = 6 := Option.some.inj hd6
  subst this
  have hp10 : (10 : Nat) = p :=
    Option.some.inj (show some 10 = some p from hp)
  subst hp10
  refine ⟨by simpa [s0] using hdelta, ?_⟩
  exact (Option.some.inj (show some 3 = some
    ((dpiObjectType__init initExtW tConnW s0).2.1.numAttributes)
    from hnum)).symm

/-- C2: every describe context allocated during `dpiObjectType__init` or
during `dpiObjectType_getAttributes` is released exactly once on every
execution path, for every outcome of every external call (fault injection
at each step): the set of live contexts is returned unchanged, the
double-free flag is untouched, and a run's events contain as many context
allocations as context releases. -/
theorem describe_context_released_exactly_once (ext1 : InitExt)
    (t1 : DpiObjectType) (s1 : DpiSt) (ext2 : GetAttrExt) (valid : Bool)
    (t2 : DpiObjectType) (cap : Nat) (attrsNull : Bool)
    (dest : Nat → Option Nat) (s2 : DpiSt) :
    ((dpiObjectType__init ext1 t1 s1).2.2.ctxLive = s1.ctxLive ∧
     (dpiObjectType__init ext1 t1 s1).2.2.badFree = s1.badFree ∧
     (traceDelta s1 (dpiObjectType__init ext1 t1 s1).2.2).countP
         isCtxAllocEv =
       (traceDelta s1 (dpiObjectType__init ext1 t1 s1).2.2).countP
         isCtxFreeEv) ∧
    ((dpiObjectType_getAttributes ext2 valid t2 cap attrsNull dest
        s2).2.2.ctxLive = s2.ctxLive ∧
     (dpiObjectType_getAttributes ext2 valid t2 cap attrsNull dest
        s2).2.2.badFree = s2.badFree ∧
     (traceDelta s2 (dpiObjectType_getAttributes ext2 valid t2 cap attrsNull
        dest s2).2.2).countP isCtxAllocEv =
       (traceDelta s2 (dpiObjectType_getAttributes ext2 valid t2 cap
        attrsNull dest s2).2.2).countP isCtxFreeEv) := by
  constructor
  · rcases (dpiObjectType__init_anatomy ext1 t1 s1).1 with hst | ⟨d, hd, hst⟩
    · rw [hst]
      exact ⟨rfl, rfl, by rw [traceDelta, List.drop_length]; rfl⟩
    · rw [hst]
      refine ⟨rfl, rfl, ?_⟩
      rw [traceDelta]
      dsimp only
      rw [List.drop_left]
      simp [isCtxAllocEv, isCtxFreeEv]
  · rcases dpiObjectType_getAttributes_anatomy ext2 valid t2 cap attrsNull
      dest s2 with ⟨hst, -⟩ | ⟨l, hall, hst⟩
    · rw [hst]
      exact ⟨rfl, rfl, by rw [traceDelta, List.drop_length]; rfl⟩
    · rw [hst]
      refine ⟨rfl, rfl, ?_⟩
      rw [traceDelta]
      dsimp only
      have hl0 : l.countP isCtxAllocEv = 0 := by
        refine List.countP_eq_zero.mpr ?_
        intro e he
        obtain ⟨pos, hpe⟩ := hall e he
        subst hpe
        simp [isCtxAllocEv]
      have hl1 : l.countP isCtxFreeEv = 0 := by
        refine List.countP_eq_zero.mpr ?_
        intro e he
        obtain ⟨pos, hpe⟩ := hall e he
        subst hpe
        simp [isCtxFreeEv]
      simp only [List.append_assoc]
      rw [List.drop_left]
      simp [List.countP_cons, List.countP_append, isCtxAllocEv, isCtxFreeEv,
        hl0, hl1]

lemma dpiObjectType__free_conn_counts (t : DpiObjectType) (s : DpiSt)
    (connId : Nat) (hc : t.conn = some connId)
    (he : t.elementTypeInfo.objectType = none) :
    ∃ L, (dpiObjectType__free t s).trace = s.trace ++ L ∧
      L.count (DpiEv.incRef connId) = 0 ∧
      L.count (DpiEv.decRef connId) = 1 ∧
      (dpiObjectType__free t s).refCount connId = s.refCount connId - 1 := by
  cases hsch : t.schema.isSome <;> cases hnm : t.name.isSome
  · refine ⟨[DpiEv.decRef connId, DpiEv.freeStorage], ?_, ?_, ?_, ?_⟩ <;>
      simp [dpiObjectType__free, dpiGen__decRef, DpiSt.emit, hc, he, hsch,
        hnm, List.count_cons]
  · refine ⟨[DpiEv.decRef connId, DpiEv.freeName, DpiEv.freeStorage],
      ?_, ?_, ?_, ?_⟩ <;>
      simp [dpiObjectType__free, dpiGen__decRef, DpiSt.emit, hc, he, hsch,
        hnm, List.count_cons]
  · refine ⟨[DpiEv.decRef connId, DpiEv.freeSchema, DpiEv.freeStorage],
      ?_, ?_, ?_, ?_⟩ <;>
      simp [dpiObjectType__free, dpiGen__decRef, DpiSt.emit, hc, he, hsch,
        hnm, List.count_cons]
  · refine ⟨[DpiEv.decRef connId, DpiEv.freeSchema, DpiEv.freeName,
      DpiEv.freeStorage], ?_, ?_, ?_, ?_⟩ <;>
      simp [dpiObjectType__free, dpiGen__decRef, DpiSt.emit, hc, he, hsch,
        hnm, List.count_cons]

/-- C10: whenever `dpiObjectType__allocate` fails — at registry
allocation, at taking the connection reference, or anywhere during
initialization — the caller's output descriptor is `none` and the
connection's reference count is net-unchanged, the run containing at most
one increment and exactly as many decrements as increments; on success the
returned descriptor references the connection, whose count went up by
exactly one increment and no decrement. -/
theorem allocate_failure_null_out_balanced_conn (ext : AllocExt)
    (connId : Nat) (s : DpiSt) :
    ((dpiObjectType__allocate ext connId s).1 = none ∧
      (dpiObjectType__allocate ext connId s).2.refCount connId =
        s.refCount connId ∧
      (traceDelta s (dpiObjectType__allocate ext connId s).2).count
          (DpiEv.incRef connId) =
        (traceDelta s (dpiObjectType__allocate ext connId s).2).count
          (DpiEv.decRef connId) ∧
      (traceDelta s (dpiObjectType__allocate ext connId s).2).count
          (DpiEv.incRef connId) ≤ 1) ∨
    (∃ t, (dpiObjectType__allocate ext connId s).1 = some t ∧
      t.conn = some connId ∧
      (dpiObjectType__allocate ext connId s).2.refCount connId =
        s.refCount connId + 1 ∧
      (traceDelta s (dpiObjectType__allocate ext connId s).2).count
          (DpiEv.incRef connId) = 1 ∧
      (traceDelta s (dpiObjectType__allocate ext connId s).2).count
          (DpiEv.decRef connId) = 0) := by
  cases hga : ext.genAllocOk
  · left
    refine ⟨?_, ?_, ?_, ?_⟩ <;>
      simp [dpiObjectType__allocate, traceDelta, hga, List.drop_length]
  cases hcadd : ext.connAddOk
  · left
    refine ⟨?_, ?_, ?_, ?_⟩ <;>
      simp [dpiObjectType__allocate, dpiObjectType__free, DpiSt.emit,
        traceDelta, hga, hcadd, List.drop_left, List.count_cons]
  · rcases hini : dpiObjectType__init ext.init { conn := some connId }
      (dpiGen__incRef connId s) with ⟨ok, t2, s2⟩
    have hana := dpiObjectType__init_anatomy ext.init { conn := some connId }
      (dpiGen__incRef connId s)
    rw [hini] at hana
    dsimp only at hana
    obtain ⟨hstd, hconn2, hfel, -⟩ := hana
    have hc2 : t2.conn = some connId := hconn2
    have hrc2 : s2.refCount = (dpiGen__incRef connId s).refCount := by
      rcases hstd with h | ⟨d, hd, h⟩ <;> rw [h]
    have htr2 : ∃ L, s2.trace = (dpiGen__incRef connId s).trace ++ L ∧
        L.count (DpiEv.incRef connId) = 0 ∧
        L.count (DpiEv.decRef connId) = 0 := by
      rcases hstd with h | ⟨d, hd, h⟩
      · exact ⟨[], by rw [h]; simp, rfl, rfl⟩
      · refine ⟨[DpiEv.ctxAlloc (dpiGen__incRef connId s).ctxNext,
          DpiEv.describeAny (dpiGen__incRef connId s).ctxNext (some d),
          DpiEv.ctxFree (dpiGen__incRef connId s).ctxNext], by rw [h], ?_, ?_⟩ <;>
          simp [List.count_cons]
    obtain ⟨L, hLtr, hLinc, hLdec⟩ := htr2
    have hinctr : (dpiGen__incRef connId s).trace =
        s.trace ++ [DpiEv.incRef connId] := rfl
    have hincrc : (dpiGen__incRef connId s).refCount connId =
        s.refCount connId + 1 := by
      simp [dpiGen__incRef]
    cases ok
    · -- initialization failed: the partial descriptor is torn down
      left
      have he2 : t2.elementTypeInfo.objectType = none := by
        have h := hfel rfl
        rw [h]
      obtain ⟨L3, hL3tr, hL3inc, hL3dec, hL3rc⟩ :=
        dpiObjectType__free_conn_counts t2 s2 connId hc2 he2
      have hres : dpiObjectType__allocate ext connId s =
          (none, dpiObjectType__free t2 s2) := by
        simp [dpiObjectType__allocate, hga, hcadd, hini]
      rw [hres]
      have hdelta : traceDelta s (dpiObjectType__free t2 s2) =
          [DpiEv.incRef connId] ++ (L ++ L3) := by
        rw [traceDelta, hL3tr, hLtr, hinctr]
        simp only [List.append_assoc]
        exact List.drop_left s.trace _
      refine ⟨rfl, ?_, ?_, ?_⟩
      · rw [hL3rc, hrc2, hincrc]
        exact Nat.add_sub_cancel _ _
      · rw [hdelta]
        simp [List.count_append, List.count_cons, hLinc, hLdec, hL3inc,
          hL3dec]
      · rw [hdelta]
        simp [List.count_append, List.count_cons, hLinc, hL3inc]
    · -- success
      right
      have hres : dpiObjectType__allocate ext connId s = (some t2, s2) := by
        simp [dpiObjectType__allocate, hga, hcadd, hini]
      rw [hres]
      have hdelta : traceDelta s s2 = [DpiEv.incRef connId] ++ L := by
        rw [traceDelta, hLtr, hinctr]
        simp only [List.append_assoc]
        exact List.drop_left s.trace _
      refine ⟨t2, rfl, hc2, ?_, ?_, ?_⟩
      · rw [hrc2, hincrc]
      · rw [hdelta]
        simp [List.count_append, List.count_cons, hLinc]
      · rw [hdelta]
        simp [List.count_append, List.count_cons, hLdec]

/-- C8: when `dpiObjectType_getAttributes` succeeds on a valid descriptor
with a positive attribute count N, it fetched the attribute sub-parameter
at each 1-based position 1..N of the attribute-list parameter and wrote
exactly one materialized attribute descriptor per position into the
destination array in declaration order — position i+1 landing at array
index i for every i < N — while indices at or beyond N are untouched. -/
theorem getAttributes_declaration_order (ext : GetAttrExt)
    (t : DpiObjectType) (cap : Nat) (dest : Nat → Option Nat) (s : DpiSt)
    (hN : 0 < t.numAttributes)
    (hsucc : (dpiObjectType_getAttributes ext true t cap false dest s).1 =
      Except.ok ()) :
    ∃ p alp, ext.topParam = some p ∧ ext.attrListParamOf p = some alp ∧
      (∀ i < t.numAttributes, ∃ ap a,
        ext.subParamAt alp (i + 1) = some ap ∧ ext.attrAlloc ap = some a ∧
        (dpiObjectType_getAttributes ext true t cap false dest s).2.1 i =
          some a) ∧
      (∀ j, t.numAttributes ≤ j →
        (dpiObjectType_getAttributes ext true t cap false dest s).2.1 j =
          dest j) := by
  by_cases hlt : cap < t.numAttributes
  · simp [dpiObjectType_getAttributes, hlt] at hsucc
  have hz : ¬ cap = 0 := by omega
  cases hca : ext.ctxAllocOk
  · simp [dpiObjectType_getAttributes, dpiOci__handleAlloc, hlt, hz,
      hca] at hsucc
  cases hd : ext.describeAnyOk
  · simp [dpiObjectType_getAttributes, dpiOci__handleAlloc,
      dpiOci__handleFree, DpiSt.emit, hlt, hz, hca, hd] at hsucc
  rcases hp : ext.topParam with _ | p
  · simp [dpiObjectType_getAttributes, dpiOci__handleAlloc,
      dpiOci__handleFree, DpiSt.emit, hlt, hz, hca, hd, hp] at hsucc
  rcases hal : ext.attrListParamOf p with _ | alp
  · simp [dpiObjectType_getAttributes, dpiOci__handleAlloc,
      dpiOci__handleFree, DpiSt.emit, hlt, hz, hca, hd, hp, hal] at hsucc
  rw [dpiObjectType_getAttributes_unfold_long ext t cap dest s p alp hlt hz
    hca hd hp hal] at hsucc ⊢
  rcases hloop : dpiObjectType_getAttrLoop ext alp (List.range t.numAttributes)
      dest (DpiSt.emit (dpiOci__handleAlloc true s).2
        (DpiEv.describeAny s.ctxNext t.tdo)) with ⟨r5, s5⟩
  rw [hloop] at hsucc
  cases r5 with
  | none => exact Except.noConfusion hsucc
  | some d5 =>
    obtain ⟨hin, hout⟩ := dpiObjectType_getAttrLoop_success ext alp
      (List.range t.numAttributes) dest
      (DpiSt.emit (dpiOci__handleAlloc true s).2
        (DpiEv.describeAny s.ctxNext t.tdo)) d5 s5 hloop
      (List.nodup_range t.numAttributes)
    refine ⟨p, alp, rfl, hal, ?_, ?_⟩
    · intro i hi
      obtain ⟨ap, a, h1, h2, h3⟩ := hin i (List.mem_range.mpr hi)
      exact ⟨ap, a, h1, h2, h3⟩
    · intro j hj
      exact hout j (fun hmem => by
        have := List.mem_range.mp hmem
        omega)

/-- Witness for C8: a two-attribute descriptor described through the
all-succeeding oracle — positions 1 and 2 land at indices 0 and 1 with
the materialized descriptors. -/
theorem getAttributes_declaration_order_witness :
    (dpiObjectType_getAttributes gaExtOkW true tW2 2 false destW s0).2.1 0 =
      some 1108 ∧
    (dpiObjectType_getAttributes gaExtOkW true tW2 2 false destW s0).2.1 1 =
      some 1109 := by
  obtain ⟨p, alp, hp, hal, hin, hout⟩ :=
    getAttributes_declaration_order gaExtOkW tW2 2 destW s0 (by decide) rfl
  have hp10 : (10 : Nat) = p :=
    Option.some.inj (show some 10 = some p from hp)
  subst hp10
  have hal11 : (11 : Nat) = alp :=
    Option.some.inj (show some 11 = some alp from hal)
  subst hal11
  obtain ⟨ap0, a0, hsp0, haa0, hd0⟩ := hin 0 (by decide)
  obtain ⟨ap1, a1, hsp1, haa1, hd1⟩ := hin 1 (by decide)
  have h1 : (1101 : Nat) = ap0 :=
    Option.some.inj (show some 1101 = some ap0 from hsp0)
  subst h1
  have h2 : (1108 : Nat) = a0 :=
    Option.some.inj (show some 1108 = some a0 from haa0)
  subst h2
  have h3 : (1102 : Nat) = ap1 :=
    Option.some.inj (show some 1102 = some ap1 from hsp1)
  subst h3
  have h4 : (1109 : Nat) = a1 :=
    Option.some.inj (show some 1109 = some a1 from haa1)
  subst h4
  exact ⟨hd0, hd1⟩

/-- Witness for C5 (amended): a valid handle with a non-null out-pointer
yields the snapshot and leaves the state untouched. -/
theorem getInfo_readonly_snapshot_witness :
    (dpiObjectType_getInfo true false tW3 s0).2 = s0 ∧
    (dpiObjectType_getInfo true false tW3 s0).1 = Except.ok
      { name := tW3.name, nameLength := tW3.nameLength,
        schema := tW3.schema, schemaLength := tW3.schemaLength,
        isCollection := tW3.isCollection,
        elementTypeInfo := tW3.elementTypeInfo,
        numAttributes := tW3.numAttributes } :=
  ⟨(getInfo_readonly_snapshot true false tW3 s0).1,
   (getInfo_readonly_snapshot true false tW3 s0).2.1 rfl rfl⟩
